import Mathlib

/-!
Verification of the MealMind meal-planning core: a shallow embedding of the
constraint-validation engine (`src/agents/nutrition_compliance.py`), the
generate-validate-retry orchestrator (`src/orchestrator.py`), the constraint
aggregator (`src/tools/family_profile_store.py`), the health-condition
guideline lookup (`src/memory/session_manager.py`) and the cooking-time
analyzer (`src/agents/schedule_optimizer.py`), together with theorems settling
the behavioural claims about them.

Modelling conventions:
- Python numbers (ints and floats) are modelled as exact rationals `ℚ`;
  the float literals 0.25/0.35/0.40/0.33/0.3 become the corresponding
  rationals and `round(x, 2)` becomes exact half-up rounding to 2 decimals.
- Python `str.lower` is modelled character-wise with `Char.toLower`
  (faithful on the ASCII data the program uses) and the Python substring
  test `needle in hay` is modelled by `strContains`.
- The external nutrient lookup (`tools/nutrition_lookup.py`, an HTTP/caching
  collaborator) is a parameter `lookup : String → ℚ → Option Nutrition`;
  `none` models the exception path that `calculate_recipe_nutrition` catches.
- The Recipe Source (`agents/recipe_generator.py`, an LLM collaborator) is a
  parameter of the orchestrator embedding: a function from the number of
  Recipe Source calls already made in the slot to the produced candidate.
-/

namespace MealMind

/-- Python `str.lower`, character by character. -/
def lowerStr (s : String) : String := ⟨s.data.map Char.toLower⟩

/-- Helper for `strContains`: does `needle` occur as a contiguous sublist? -/
def containsSubAux (needle : List Char) : List Char → Bool
  | [] => needle.isEmpty
  | c :: rest => needle.isPrefixOf (c :: rest) || containsSubAux needle rest

/-- Python's substring test `needle in hay`. -/
def strContains (hay needle : String) : Bool :=
  containsSubAux needle.data hay.data

/-- Python `int(q)` on a nonnegative-or-negative real value: truncation toward 0. -/
def pyTrunc (q : ℚ) : ℤ := if 0 ≤ q then ⌊q⌋ else -⌊-q⌋

/-- Python `round(q, 2)` modelled as exact half-up rounding to 2 decimals. -/
def round2 (q : ℚ) : ℚ := (⌊q * 100 + 1 / 2⌋ : ℚ) / 100

/-- One ingredient line of a recipe: `name`/`amount`/`unit` dictionaries
produced by `agents/recipe_generator.py`. -/
structure Ingredient where
  name : String
  amount : ℚ
  unit : String
deriving DecidableEq

/-- The nutrient fields tracked by `calculate_recipe_nutrition` and
`tools/nutrition_lookup.py`. -/
structure Nutrition where
  calories : ℚ
  protein_g : ℚ
  carbs_g : ℚ
  fat_g : ℚ
  fiber_g : ℚ
  sugar_g : ℚ
  sodium_mg : ℚ
deriving DecidableEq

def Nutrition.zero : Nutrition := ⟨0, 0, 0, 0, 0, 0, 0⟩

def Nutrition.add (a b : Nutrition) : Nutrition :=
  ⟨a.calories + b.calories, a.protein_g + b.protein_g, a.carbs_g + b.carbs_g,
   a.fat_g + b.fat_g, a.fiber_g + b.fiber_g, a.sugar_g + b.sugar_g,
   a.sodium_mg + b.sodium_mg⟩

/-- Apply `f` to every nutrient field (the per-serving division/rounding). -/
def Nutrition.map (f : ℚ → ℚ) (a : Nutrition) : Nutrition :=
  ⟨f a.calories, f a.protein_g, f a.carbs_g, f a.fat_g, f a.fiber_g,
   f a.sugar_g, f a.sodium_mg⟩

/-- The `Recipe` model of `agents/recipe_generator.py` (the fields the
validator and orchestrator read).  `servings` is `none` when the key is
absent from the recipe dictionary (`recipe.get("servings", 4)`); the
`nutritional_info`/`nutrition_validated` fields are attached by the
orchestrator on acceptance. -/
structure Recipe where
  name : String
  meal_type : String
  cooking_time_minutes : ℚ
  servings : Option ℕ := some 4
  ingredients : List Ingredient := []
  nutritional_info : Option Nutrition := none
  nutrition_validated : Bool := false
deriving DecidableEq

/-- A family member as the validator's planning context sees it
(`FamilyMember` in `tools/family_profile_store.py`). -/
structure Member where
  name : String
  health_conditions : List String := []
  allergies : List String := []
  dietary_restrictions : List String := []
  preferences : List String := []
  dislikes : List String := []
  calorie_target : Option ℚ := none
deriving DecidableEq

/-- The avoid/prefer guideline entry for one health condition. -/
structure Guidelines where
  avoid : List String
  prefer : List String
deriving DecidableEq

/-- Association-list model of a Python dict with string keys. -/
def lookupAssoc (l : List (String × Guidelines)) (k : String) : Option Guidelines :=
  (l.find? (fun p => p.1 = k)).map (·.2)

/-- The aggregated constraints dictionary consumed by `validate_recipe`. -/
structure Constraints where
  allergies : List String := []
  dietary_restrictions : List String := []
  health_conditions : List String := []
  health_guidelines : List (String × Guidelines) := []
  dislikes : List String := []
deriving DecidableEq

/-- The part of the planning context that `validate_recipe` reads
(`planning_context.get("members", [])`). -/
structure PlanningContext where
  members : List Member := []
  cooking_time_max : ℚ := 45
deriving DecidableEq

/-- `NutritionValidationResult` from `agents/nutrition_compliance.py`. -/
structure ValidationResult where
  is_compliant : Bool
  violations : List String
  warnings : List String
  nutritional_summary : Nutrition
  recommendations : List String
deriving DecidableEq

/-- The nutrient lookup collaborator; `none` models the exception path. -/
def Lookup : Type := String → ℚ → Option Nutrition

/-- `calculate_recipe_nutrition`, the ingredient-summing loop: "ml" passes the
amount through 1:1 as grams, "pieces" lines are skipped with `continue`, a
failed lookup (`none`) is the caught-and-logged exception, every other unit
passes its amount straight to the lookup. -/
def sumIngredients (lookup : Lookup) : List Ingredient → Nutrition → Nutrition
  | [], acc => acc
  | ing :: rest, acc =>
    if ing.unit = "pieces" then sumIngredients lookup rest acc
    else
      -- "ml" is treated 1:1 as grams; the code's `ml` branch keeps the amount unchanged
      let amount_grams := ing.amount
      match lookup ing.name amount_grams with
      | some n => sumIngredients lookup rest (acc.add n)
      | none => sumIngredients lookup rest acc

/-- `calculate_recipe_nutrition` from `agents/nutrition_compliance.py`:
sum the lookups, then divide each field by `servings` (default 4) and round
to 2 decimals. -/
def calculate_recipe_nutrition (lookup : Lookup) (r : Recipe) : Nutrition :=
  let total := sumIngredients lookup r.ingredients Nutrition.zero
  let servings : ℚ := (r.servings.getD 4 : ℕ)
  total.map (fun v => round2 (v / servings))

/-- `check_allergens` from `agents/nutrition_compliance.py`: for every
ingredient line, substring-match the lowercased name against every lowercased
allergy term, appending `"<allergen> (found in <ingredient>)"` on a hit. -/
def check_allergens (r : Recipe) (allergies : List String) : List String :=
  r.ingredients.foldl
    (fun found ing =>
      allergies.foldl
        (fun found allergen =>
          if strContains (lowerStr ing.name) (lowerStr allergen) then
            found ++ [allergen ++ " (found in " ++ ing.name ++ ")"]
          else found)
        found)
    []

/-- The `restriction_patterns` table of `check_dietary_restrictions`. -/
def restriction_patterns (restriction : String) : Option (List String) :=
  if restriction = "vegan" then
    some ["meat", "chicken", "beef", "pork", "fish", "egg", "milk", "cheese",
          "butter", "cream", "yogurt"]
  else if restriction = "vegetarian" then
    some ["meat", "chicken", "beef", "pork", "fish", "salmon"]
  else if restriction = "gluten-free" then
    some ["wheat", "bread", "pasta", "flour", "barley", "rye"]
  else if restriction = "dairy-free" then
    some ["milk", "cheese", "butter", "cream", "yogurt"]
  else if restriction = "keto" then
    some ["rice", "pasta", "bread", "potato", "sugar"]
  else if restriction = "low-carb" then
    some ["rice", "pasta", "bread", "potato"]
  else none

/-- `check_dietary_restrictions` from `agents/nutrition_compliance.py`.  The
inner `break` after the first matching forbidden term appends exactly one
violation per offending ingredient, which the `List.any` test reproduces. -/
def check_dietary_restrictions (r : Recipe) (restrictions : List String) : List String :=
  restrictions.foldl
    (fun viols restriction =>
      match restriction_patterns (lowerStr restriction) with
      | none => viols
      | some forbidden =>
        r.ingredients.foldl
          (fun viols ing =>
            if forbidden.any (fun f => strContains (lowerStr ing.name) f) then
              viols ++ [restriction ++ " restriction violated: contains " ++ ing.name]
            else viols)
          viols)
    []

/-- `check_health_conditions` from `agents/nutrition_compliance.py`:
"avoid" hits are violations; a recipe with none of a condition's "prefer"
terms gets one warning suggesting the first 3 preferred items. -/
def check_health_conditions (r : Recipe) (conds : List String)
    (hg : List (String × Guidelines)) : List String × List String :=
  conds.foldl
    (fun vw condition =>
      let g := (lookupAssoc hg (lowerStr condition)).getD ⟨[], []⟩
      let v := r.ingredients.foldl
        (fun v ing =>
          g.avoid.foldl
            (fun v avoidItem =>
              if strContains (lowerStr ing.name) (lowerStr avoidItem) then
                v ++ [condition ++ ": should avoid " ++ ing.name]
              else v)
            v)
        vw.1
      let hasPref := r.ingredients.any
        (fun ing => g.prefer.any (fun p => strContains (lowerStr ing.name) (lowerStr p)))
      let w :=
        if !hasPref && !g.prefer.isEmpty then
          vw.2 ++ [condition ++ ": consider adding " ++ String.intercalate ", " (g.prefer.take 3)]
        else vw.2
      (v, w))
    ([], [])

/-- The `meal_percentages` table of `check_calorie_targets`:
breakfast 0.25, lunch 0.35, dinner 0.40, and 0.33 for any other meal type. -/
def meal_share (meal_type : String) : ℚ :=
  if meal_type = "breakfast" then 25 / 100
  else if meal_type = "lunch" then 35 / 100
  else if meal_type = "dinner" then 40 / 100
  else 33 / 100

/-- The warning text for a meal over a member's calorie target. -/
def overMsg (memberName meal_type : String) (calories expected : ℚ) : String :=
  memberName ++ ": " ++ meal_type ++ " is " ++ toString (pyTrunc (calories - expected)) ++
    " calories over target (" ++ toString (pyTrunc expected) ++ " expected)"

/-- The warning text for a meal under a member's calorie target. -/
def underMsg (memberName meal_type : String) (calories expected : ℚ) : String :=
  memberName ++ ": " ++ meal_type ++ " is " ++ toString (pyTrunc (expected - calories)) ++
    " calories under target (" ++ toString (pyTrunc expected) ++ " expected)"

/-- `check_calorie_targets` from `agents/nutrition_compliance.py`.  The
Python guard `if target:` skips members whose target is `None` or `0`
(falsy); a warning is appended when `abs(calories - expected)` strictly
exceeds `expected * 0.3`. -/
def check_calorie_targets (nutrition : Nutrition) (members : List Member)
    (meal_type : String) : List String :=
  let meal_pct := meal_share meal_type
  let calories := nutrition.calories
  members.foldl
    (fun warnings mem =>
      match mem.calorie_target with
      | none => warnings
      | some target =>
        if target = 0 then warnings  -- Python truthiness: `if target:` is false at 0
        else
          let expected := target * meal_pct
          if |calories - expected| > expected * (3 / 10) then
            if calories > expected then
              warnings ++ [overMsg mem.name meal_type calories expected]
            else
              warnings ++ [underMsg mem.name meal_type calories expected]
          else warnings)
    []

/-- `validate_recipe` from `agents/nutrition_compliance.py`: allergen
violations first, then dietary-restriction violations, then health-condition
violations; warnings are condition warnings, calorie warnings, then the
sodium warning; compliance is emptiness of the violations list. -/
def validate_recipe (lookup : Lookup) (r : Recipe) (pc : PlanningContext)
    (c : Constraints) : ValidationResult :=
  let nutrition := calculate_recipe_nutrition lookup r
  let found := if c.allergies.isEmpty then [] else check_allergens r c.allergies
  let v1 := found.map (fun a => "ALLERGEN ALERT: " ++ a)
  let v2 := if c.dietary_restrictions.isEmpty then []
            else check_dietary_restrictions r c.dietary_restrictions
  let vw3 := if c.health_conditions.isEmpty then ([], [])
             else check_health_conditions r c.health_conditions c.health_guidelines
  let w2 := check_calorie_targets nutrition pc.members r.meal_type
  let recs :=
    (if nutrition.protein_g < 15 then ["Consider adding more protein sources"] else []) ++
    (if nutrition.fiber_g < 5 then ["Consider adding more fiber-rich ingredients"] else [])
  let w3 := if nutrition.sodium_mg > 800 then
              ["High sodium content - consider reducing salt"] else []
  let violations := v1 ++ v2 ++ vw3.1
  { is_compliant := violations.isEmpty
    violations := violations
    warnings := vw3.2 ++ w2 ++ w3
    nutritional_summary := nutrition
    recommendations := recs }

/-- The default `health_condition_mappings` table written by
`_initialize_memory_structure` in `src/memory/session_manager.py`
(note the mixed-case keys `"PCOS"`, `"high blood pressure"`,
`"gluten intolerance"` exactly as in the source). -/
def health_condition_mappings : List (String × Guidelines) :=
  [("diabetes",
    ⟨["sugar", "white bread", "candy", "soda"],
     ["whole grains", "vegetables", "lean protein"]⟩),
   ("PCOS",
    ⟨["refined carbs", "sugary foods"],
     ["low-GI foods", "lean protein", "vegetables"]⟩),
   ("high blood pressure",
    ⟨["salt", "processed foods", "fatty meats"],
     ["low sodium", "vegetables", "whole grains"]⟩),
   ("gluten intolerance",
    ⟨["wheat", "barley", "rye"],
     ["rice", "quinoa", "gluten-free grains"]⟩)]

/-- `get_health_condition_guidelines` from `src/memory/session_manager.py`:
lowercase the condition, look it up in the mappings table, defaulting to
empty avoid/prefer lists. -/
def get_health_condition_guidelines (condition : String) : Guidelines :=
  (lookupAssoc health_condition_mappings (lowerStr condition)).getD ⟨[], []⟩

/-- A household as `get_all_constraints` reads it: `household.members.values()`
in insertion order. -/
structure Household where
  household_id : String
  members : List Member := []
  cooking_time_max_minutes : ℚ := 45
deriving DecidableEq

/-- The four Python `set()` accumulators of `get_all_constraints`; the
returned lists are these sets in hash order, so the embedding keeps them as
finite sets. -/
structure ConstraintSets where
  allergies : Finset String
  dietary_restrictions : Finset String
  health_conditions : Finset String
  dislikes : Finset String
deriving DecidableEq

/-- `get_all_constraints` from `src/tools/family_profile_store.py`:
`set.update` over every member's four lists (exact string equality, as in
Python sets). -/
def get_all_constraints (h : Household) : ConstraintSets :=
  { allergies :=
      h.members.foldl (fun s m => s ∪ m.allergies.toFinset) ∅
    dietary_restrictions :=
      h.members.foldl (fun s m => s ∪ m.dietary_restrictions.toFinset) ∅
    health_conditions :=
      h.members.foldl (fun s m => s ∪ m.health_conditions.toFinset) ∅
    dislikes :=
      h.members.foldl (fun s m => s ∪ m.dislikes.toFinset) ∅ }

/-- `recipe_dict["nutritional_info"] = validation.nutritional_summary;
recipe_dict["nutrition_validated"] = True` on acceptance in
`_generate_validated_recipe`. -/
def attachNutrition (r : Recipe) (v : ValidationResult) : Recipe :=
  { r with nutritional_info := some v.nutritional_summary, nutrition_validated := true }

/-- The retry loop of `_generate_validated_recipe` in `src/orchestrator.py`,
parameterized by the Recipe Source (`gen`, indexed by the number of Recipe
Source calls already made for this slot) and the validator.  Each loop
iteration starts with a `generate_recipe` call (one Recipe Source call); on a
non-final failed attempt the code additionally calls `regenerate_recipe`
(a second Recipe Source call) but the variable it assigns is overwritten by
the next iteration's `generate_recipe` call, so that result is discarded.
Returns the accepted recipe (if any) and the total number of Recipe Source
calls made. -/
def genValidatedAux (gen : ℕ → Recipe) (validate : Recipe → ValidationResult) :
    ℕ → ℕ → Option Recipe × ℕ
  | 0, calls => (none, calls)
  | remaining + 1, calls =>
    let r := gen calls
    let v := validate r
    if v.is_compliant then (some (attachNutrition r v), calls + 1)
    else if 0 < remaining then
      -- feedback is generated and `regenerate_recipe` consumes one more
      -- Recipe Source call, but its result is dead (overwritten next turn)
      genValidatedAux gen validate remaining (calls + 2)
    else genValidatedAux gen validate remaining (calls + 1)

/-- `_generate_validated_recipe(meal_type, …, max_retries)`:
`for attempt in range(max_retries)` with the body above; `None` on
exhaustion. -/
def generateValidatedRecipe (gen : ℕ → Recipe) (validate : Recipe → ValidationResult)
    (max_retries : ℕ) : Option Recipe × ℕ :=
  genValidatedAux gen validate max_retries 0

/-- A day entry of the weekly plan: its day number and its list of accepted meals. -/
structure Day where
  day : ℕ
  meals : List Recipe
deriving DecidableEq

/-- The fixed meal-type order of the orchestrator's inner loop. -/
def mealTypes : List String := ["breakfast", "lunch", "dinner"]

/-- The plan-building loops of `generate_complete_meal_plan` in
`src/orchestrator.py` (steps 2 and 3): for each day and each meal type, run
the retry loop; append the recipe when one is returned, otherwise only log a
warning (nothing is appended for the failed slot). -/
def generate_complete_meal_plan (gen : String → ℕ → Recipe)
    (validate : Recipe → ValidationResult) (days max_retries : ℕ) : List Day :=
  (List.range days).foldl
    (fun weekly_plan i =>
      let day_meals := mealTypes.foldl
        (fun meals mt =>
          match (generateValidatedRecipe (gen mt) validate max_retries).1 with
          | some recipe => meals ++ [recipe]
          | none => meals)
        []
      weekly_plan ++ [{ day := i + 1, meals := day_meals }])
    []

/-- The result dictionary of `analyze_cooking_times`. -/
structure CookingStats where
  total_minutes : ℚ
  average_per_day : ℚ
  max_day : ℚ
  min_day : ℚ
  daily_times : List ℚ
deriving DecidableEq

/-- The loop body of `analyze_cooking_times`: extend the daily list, add to
the total, update the running max, and update the running min (the
`float("inf")` start is the `none` state). -/
def ctStep (st : List ℚ × ℚ × ℚ × Option ℚ) (day : Day) : List ℚ × ℚ × ℚ × Option ℚ :=
  let day_time := (day.meals.map (·.cooking_time_minutes)).sum
  (st.1 ++ [day_time], st.2.1 + day_time, max st.2.2.1 day_time,
   some (match st.2.2.2 with
         | none => day_time
         | some m => min m day_time))

/-- `analyze_cooking_times` from `src/agents/schedule_optimizer.py`.  The
running minimum starts at `float("inf")`, modelled as `none`; the result maps
the sentinel back to 0 (`min_time if min_time != float("inf") else 0`), and
`average_per_day` is `total/len(weekly_plan) if weekly_plan else 0`. -/
def analyze_cooking_times (weekly_plan : List Day) : CookingStats :=
  let st := weekly_plan.foldl ctStep ([], 0, 0, none)
  { total_minutes := st.2.1
    average_per_day := if weekly_plan.isEmpty then 0 else st.2.1 / weekly_plan.length
    max_day := st.2.2.1
    min_day := (st.2.2.2).getD 0
    daily_times := st.1 }

/-! ### Spec-side comparator definitions (refinement claims)

These definitions follow the specification's words, to be compared with the
embeddings above that were translated from the source. -/

/-- Accumulate one ingredient line: add the lookup result, or skip a failed
lookup. -/
def addLookup (lookup : Lookup) (acc : Nutrition) (ing : Ingredient) : Nutrition :=
  match lookup ing.name ing.amount with
  | some n => acc.add n
  | none => acc

/-- Spec-side nutrition formula as claim C7 states it: sum the lookup over
exactly the ingredient lines whose unit is a weight-bearing unit ("grams" or
"ml", ml treated 1:1 as grams), skipping failed lookups, then divide each
field by `servings` (default 4) and round to 2 decimals. -/
def nutritionSpecWeightUnits (lookup : Lookup) (r : Recipe) : Nutrition :=
  let lines := r.ingredients.filter (fun ing => ing.unit == "grams" || ing.unit == "ml")
  let total := lines.foldl (addLookup lookup) Nutrition.zero
  let servings : ℚ := (r.servings.getD 4 : ℕ)
  total.map (fun v => round2 (v / servings))

/-- Spec-side nutrition formula as amended: sum the lookup over all
ingredient lines whose unit is not "pieces" (any such line's amount is passed
to the lookup as grams, ml included 1:1), skipping failed lookups, then
divide by `servings` (default 4) and round to 2 decimals. -/
def nutritionSpecNonPieces (lookup : Lookup) (r : Recipe) : Nutrition :=
  let lines := r.ingredients.filter (fun ing => !(ing.unit == "pieces"))
  let total := lines.foldl (addLookup lookup) Nutrition.zero
  let servings : ℚ := (r.servings.getD 4 : ℕ)
  total.map (fun v => round2 (v / servings))

/-- Spec-side description of the calorie check for one member (claim C9 as
amended: members whose target is absent or zero produce no warning): warn
exactly when the absolute difference exceeds 30% of
`target * meal_share`. -/
def calorieWarningSpec (calories : ℚ) (meal_type : String) (mem : Member) : List String :=
  match mem.calorie_target with
  | none => []
  | some target =>
    if target = 0 then []
    else
      let expected := target * meal_share meal_type
      if |calories - expected| > expected * (3 / 10) then
        [if calories > expected then overMsg mem.name meal_type calories expected
         else underMsg mem.name meal_type calories expected]
      else []

/-- Within-member equivalence for claim C5: each of the four constraint lists
is permuted. -/
def MemberListsPerm (a b : Member) : Prop :=
  a.allergies.Perm b.allergies ∧
  a.dietary_restrictions.Perm b.dietary_restrictions ∧
  a.health_conditions.Perm b.health_conditions ∧
  a.dislikes.Perm b.dislikes

/-! ### Helper lemmas -/

theorem foldl_ext {α β : Type} (f g : β → α → β) (h : ∀ b a, f b a = g b a) :
    ∀ (l : List α) (init : β), l.foldl f init = l.foldl g init := by
  intro l
  induction l with
  | nil => intro init; rfl
  | cons a l ih => intro init; simp only [List.foldl_cons, h, ih]

theorem foldl_append_acc {α β : Type} (g : α → List β) :
    ∀ (l : List α) (init : List β),
      l.foldl (fun acc a => acc ++ g a) init = init ++ l.flatMap g := by
  intro l
  induction l with
  | nil => intro init; simp
  | cons a l ih => intro init; simp [ih]

theorem foldl_ifappend {α β : Type} (p : α → Bool) (m : α → β) (l : List α)
    (init : List β) :
    l.foldl (fun acc a => if p a then acc ++ [m a] else acc) init
      = init ++ l.flatMap (fun a => if p a then [m a] else []) := by
  rw [foldl_ext _ (fun acc a => acc ++ (if p a then [m a] else []))]
  · exact foldl_append_acc _ l init
  · intro b a; by_cases h : p a <;> simp [h]

theorem foldl_optappend {α β : Type} (f : α → Option β) :
    ∀ (l : List α) (init : List β),
      l.foldl (fun acc a => match f a with | some b => acc ++ [b] | none => acc) init
        = init ++ l.filterMap f := by
  intro l
  induction l with
  | nil => intro init; simp
  | cons a l ih =>
    intro init
    cases h : f a <;> simp [List.foldl_cons, h, ih]

theorem foldl_append_single {α β : Type} (g : α → β) :
    ∀ (l : List α) (init : List β),
      l.foldl (fun acc a => acc ++ [g a]) init = init ++ l.map g := by
  intro l
  induction l with
  | nil => intro init; simp
  | cons a l ih => intro init; simp [ih]

/-- The allergen loop, characterized: one violation entry per
(ingredient, allergen) pair whose lowercased substring test succeeds, in
ingredient-major order. -/
theorem check_allergens_eq (r : Recipe) (al : List String) :
    check_allergens r al
      = r.ingredients.flatMap (fun ing =>
          al.flatMap (fun allergen =>
            if strContains (lowerStr ing.name) (lowerStr allergen) then
              [allergen ++ " (found in " ++ ing.name ++ ")"]
            else [])) := by
  unfold check_allergens
  rw [foldl_ext _ (fun found ing =>
        found ++ al.flatMap (fun allergen =>
          if strContains (lowerStr ing.name) (lowerStr allergen) then
            [allergen ++ " (found in " ++ ing.name ++ ")"]
          else []))]
  · rw [foldl_append_acc]; simp
  · intro b ing; exact foldl_ifappend _ _ al b

/-- The dietary-restriction loop, characterized. -/
theorem check_dietary_restrictions_eq (r : Recipe) (restrictions : List String) :
    check_dietary_restrictions r restrictions
      = restrictions.flatMap (fun restriction =>
          match restriction_patterns (lowerStr restriction) with
          | none => []
          | some forbidden =>
            r.ingredients.flatMap (fun ing =>
              if forbidden.any (fun f => strContains (lowerStr ing.name) f) then
                [restriction ++ " restriction violated: contains " ++ ing.name]
              else [])) := by
  unfold check_dietary_restrictions
  rw [foldl_ext _ (fun viols restriction =>
        viols ++ (match restriction_patterns (lowerStr restriction) with
          | none => []
          | some forbidden =>
            r.ingredients.flatMap (fun ing =>
              if forbidden.any (fun f => strContains (lowerStr ing.name) f) then
                [restriction ++ " restriction violated: contains " ++ ing.name]
              else [])))]
  · rw [foldl_append_acc]; simp
  · intro b restriction
    cases h : restriction_patterns (lowerStr restriction) with
    | none => simp [h]
    | some forbidden => simp only [h]; exact foldl_ifappend _ _ r.ingredients b

/-- The calorie-target loop, characterized member by member. -/
theorem check_calorie_targets_eq (nutrition : Nutrition) (members : List Member)
    (meal_type : String) :
    check_calorie_targets nutrition members meal_type
      = members.flatMap (calorieWarningSpec nutrition.calories meal_type) := by
  unfold check_calorie_targets
  rw [foldl_ext _ (fun warnings mem =>
        warnings ++ calorieWarningSpec nutrition.calories meal_type mem)]
  · rw [foldl_append_acc]; simp
  · intro b mem
    unfold calorieWarningSpec
    cases h : mem.calorie_target with
    | none => simp
    | some target =>
      simp only
      by_cases h0 : target = 0
      · simp [h0]
      · simp only [if_neg h0]
        by_cases hth : |nutrition.calories - target * meal_share meal_type|
            > target * meal_share meal_type * (3 / 10)
        · simp only [if_pos hth]
          by_cases hover : nutrition.calories > target * meal_share meal_type <;>
            simp [hover]
        · simp [if_neg hth]

/-- Projection facts about `validate_recipe`: the violations list and the
compliance flag, unfolded. -/
theorem validate_recipe_violations (lookup : Lookup) (r : Recipe)
    (pc : PlanningContext) (c : Constraints) :
    (validate_recipe lookup r pc c).violations
      = (if c.allergies.isEmpty then [] else check_allergens r c.allergies).map
          (fun a => "ALLERGEN ALERT: " ++ a)
        ++ (if c.dietary_restrictions.isEmpty then []
            else check_dietary_restrictions r c.dietary_restrictions)
        ++ (if c.health_conditions.isEmpty then ([], [])
            else check_health_conditions r c.health_conditions c.health_guidelines).1 := by
  simp only [validate_recipe, List.append_assoc]

theorem validate_recipe_compliant (lookup : Lookup) (r : Recipe)
    (pc : PlanningContext) (c : Constraints) :
    (validate_recipe lookup r pc c).is_compliant
      = (validate_recipe lookup r pc c).violations.isEmpty := rfl

/-- Any recipe the retry loop returns was accepted at the moment its
validation came back compliant, and carries that validation's nutrition
summary. -/
theorem genValidatedAux_accept (gen : ℕ → Recipe) (v : Recipe → ValidationResult) :
    ∀ (n calls : ℕ) (r : Recipe), (genValidatedAux gen v n calls).1 = some r →
      ∃ r₀, (v r₀).is_compliant = true ∧ r = attachNutrition r₀ (v r₀) := by
  intro n
  induction n with
  | zero => intro calls r h; simp [genValidatedAux] at h
  | succ remaining ih =>
    intro calls r h
    simp only [genValidatedAux] at h
    by_cases hc : (v (gen calls)).is_compliant
    · refine ⟨gen calls, hc, ?_⟩
      simp only [if_pos hc] at h
      exact (Option.some_inj.mp h.symm)
    · simp only [if_neg hc] at h
      by_cases hr : 0 < remaining
      · simp only [if_pos hr] at h; exact ih _ r h
      · simp only [if_neg hr] at h; exact ih _ r h

/-- The inner meal-type loop of the orchestrator, characterized. -/
theorem slot_foldl_eq (gen : String → ℕ → Recipe) (v : Recipe → ValidationResult)
    (max_retries : ℕ) :
    ∀ (l : List String) (init : List Recipe),
      l.foldl (fun meals mt =>
          match (generateValidatedRecipe (gen mt) v max_retries).1 with
          | some recipe => meals ++ [recipe]
          | none => meals) init
        = init ++ l.filterMap (fun mt => (generateValidatedRecipe (gen mt) v max_retries).1) := by
  intro l
  induction l with
  | nil => intro init; simp
  | cons mt l ih =>
    intro init
    cases h : (generateValidatedRecipe (gen mt) v max_retries).1 <;>
      simp [List.foldl_cons, h, ih]

/-- The weekly-plan loops, characterized day by day and slot by slot: day
`i + 1` holds exactly the accepted recipes of its three slots, in meal-type
order, and a slot whose retry loop returned `None` contributes nothing. -/
theorem generate_complete_meal_plan_eq (gen : String → ℕ → Recipe)
    (v : Recipe → ValidationResult) (days max_retries : ℕ) :
    generate_complete_meal_plan gen v days max_retries
      = (List.range days).map (fun i =>
          { day := i + 1
            meals := mealTypes.filterMap
              (fun mt => (generateValidatedRecipe (gen mt) v max_retries).1) }) := by
  unfold generate_complete_meal_plan
  rw [foldl_ext _ (fun weekly_plan i =>
        weekly_plan ++ [{ day := i + 1
                          meals := mealTypes.filterMap
                            (fun mt => (generateValidatedRecipe (gen mt) v max_retries).1) }])]
  · rw [foldl_append_single]; simp
  · intro b i
    show b ++ [_] = b ++ [_]
    rw [slot_foldl_eq gen v max_retries mealTypes []]
    simp

/-- The four `set.update` folds of `get_all_constraints`, characterized. -/
theorem foldl_union_toFinset (f : Member → List String) :
    ∀ (l : List Member) (s : Finset String),
      l.foldl (fun s m => s ∪ (f m).toFinset) s = s ∪ (l.flatMap f).toFinset := by
  intro l
  induction l with
  | nil => intro s; simp
  | cons m l ih =>
    intro s
    simp only [List.foldl_cons, ih, List.flatMap_cons, List.toFinset_append,
      Finset.union_assoc]

theorem get_all_constraints_eq (h : Household) :
    get_all_constraints h
      = { allergies := (h.members.flatMap (·.allergies)).toFinset
          dietary_restrictions := (h.members.flatMap (·.dietary_restrictions)).toFinset
          health_conditions := (h.members.flatMap (·.health_conditions)).toFinset
          dislikes := (h.members.flatMap (·.dislikes)).toFinset } := by
  unfold get_all_constraints
  simp [foldl_union_toFinset]

/-- Member-wise permutations of the constituent lists permute the
concatenation. -/
theorem flatMap_perm_of_forall₂ {f : Member → List String} :
    ∀ {l₁ l₂ : List Member}, List.Forall₂ (fun a b => (f a).Perm (f b)) l₁ l₂ →
      (l₁.flatMap f).Perm (l₂.flatMap f) := by
  intro l₁ l₂ hf
  induction hf with
  | nil => simp
  | cons h _ ih => simpa using h.append ih

/-! ### Concrete fixtures used by witnesses and counterexamples -/

/-- A recipe a vegetarian-restricted validator rejects (its single ingredient
name contains "chicken"). -/
def badRecipe : Recipe :=
  { name := "Grilled Chicken Salad Bowl", meal_type := "dinner",
    cooking_time_minutes := 30, servings := some 4,
    ingredients := [⟨"chicken breast", 600, "grams"⟩] }

/-- A compliant vegetarian recipe. -/
def goodRecipe : Recipe :=
  { name := "Vegetable Stir-Fry with Tofu", meal_type := "dinner",
    cooking_time_minutes := 35, servings := some 4,
    ingredients := [⟨"firm tofu", 400, "grams"⟩] }

/-- A failing validation result (one restriction violation). -/
def failVR : ValidationResult :=
  { is_compliant := false,
    violations := ["vegetarian restriction violated: contains chicken breast"],
    warnings := [], nutritional_summary := Nutrition.zero, recommendations := [] }

/-- A different failing validation result (an allergen violation). -/
def failVR2 : ValidationResult :=
  { is_compliant := false,
    violations := ["ALLERGEN ALERT: peanuts (found in peanut snack mix)"],
    warnings := [], nutritional_summary := Nutrition.zero, recommendations := [] }

/-- A passing validation result. -/
def okVR : ValidationResult :=
  { is_compliant := true, violations := [], warnings := [],
    nutritional_summary := Nutrition.zero, recommendations := [] }

/-- The Recipe Source stub of claim C1: a violating recipe on its first call
of the slot, compliant recipes afterwards. -/
def stubGen : ℕ → Recipe := fun k => if k = 0 then badRecipe else goodRecipe

/-- A validator stub rejecting exactly `badRecipe`. -/
def stubValidate : Recipe → ValidationResult :=
  fun r => if r.name = badRecipe.name then failVR else okVR

/-! ### Claim theorems -/

/-- C6: the guideline lookup is total — unknown conditions resolve to empty
avoid/prefer lists — and diabetes, high blood pressure and gluten intolerance
resolve to non-empty defaults; but "PCOS" resolves to EMPTY lists even though
the default table carries a non-empty "PCOS" entry, because the lookup
lowercases the condition to "pcos" while the table key is upper-case.  This
evaluates the code at the failing input of the code-bug record. -/
theorem c6_guideline_lookup_pcos_dead_entry :
    get_health_condition_guidelines "PCOS" = ⟨[], []⟩
    ∧ lookupAssoc health_condition_mappings "PCOS"
        = some ⟨["refined carbs", "sugary foods"],
                ["low-GI foods", "lean protein", "vegetables"]⟩
    ∧ get_health_condition_guidelines "diabetes" ≠ ⟨[], []⟩
    ∧ get_health_condition_guidelines "high blood pressure" ≠ ⟨[], []⟩
    ∧ get_health_condition_guidelines "gluten intolerance" ≠ ⟨[], []⟩
    ∧ get_health_condition_guidelines "some unknown condition" = ⟨[], []⟩ := by
  refine ⟨by decide, by decide, by decide, by decide, by decide, by decide⟩

/-- C2: an ingredient whose lowercased name contains a lowercased allergy
term always makes `validate_recipe` non-compliant, with a violation string of
the form "ALLERGEN ALERT: (allergen) (found in (ingredient))" — never a mere
warning. -/
theorem c2_allergen_hit_is_blocking (lookup : Lookup) (r : Recipe)
    (pc : PlanningContext) (c : Constraints) (allergen : String) (ing : Ingredient)
    (ha : allergen ∈ c.allergies) (hi : ing ∈ r.ingredients)
    (hm : strContains (lowerStr ing.name) (lowerStr allergen) = true) :
    (validate_recipe lookup r pc c).is_compliant = false
    ∧ ("ALLERGEN ALERT: " ++ allergen ++ " (found in " ++ ing.name ++ ")")
        ∈ (validate_recipe lookup r pc c).violations := by
  have hgate : c.allergies.isEmpty = false :=
    List.isEmpty_eq_false.mpr (List.ne_nil_of_mem ha)
  have hmem0 : (allergen ++ " (found in " ++ ing.name ++ ")")
      ∈ check_allergens r c.allergies := by
    rw [check_allergens_eq]
    exact List.mem_flatMap.mpr ⟨ing, hi,
      List.mem_flatMap.mpr ⟨allergen, ha, by simp [hm]⟩⟩
  have hmem : ("ALLERGEN ALERT: " ++ allergen ++ " (found in " ++ ing.name ++ ")")
      ∈ (validate_recipe lookup r pc c).violations := by
    rw [validate_recipe_violations, hgate]
    refine List.mem_append_left _ (List.mem_append_left _ ?_)
    have := List.mem_map_of_mem (f := fun a => "ALLERGEN ALERT: " ++ a) hmem0
    simpa [String.append_assoc] using this
  refine ⟨?_, hmem⟩
  rw [validate_recipe_compliant]
  exact List.isEmpty_eq_false.mpr (List.ne_nil_of_mem hmem)

/-- Witness for C2 at a concrete input: allergy "peanuts", ingredient
"roasted peanuts". -/
theorem c2_allergen_hit_is_blocking_witness :
    ("peanuts" ∈ (Constraints.mk ["peanuts"] [] [] [] []).allergies
      ∧ (⟨"roasted peanuts", 50, "grams"⟩ : Ingredient)
          ∈ ({ name := "Peanut Snack Bowl", meal_type := "breakfast",
               cooking_time_minutes := 10,
               ingredients := [⟨"roasted peanuts", 50, "grams"⟩] } : Recipe).ingredients
      ∧ strContains (lowerStr "roasted peanuts") (lowerStr "peanuts") = true)
    ∧ ((validate_recipe (fun _ _ => none)
          { name := "Peanut Snack Bowl", meal_type := "breakfast",
            cooking_time_minutes := 10,
            ingredients := [⟨"roasted peanuts", 50, "grams"⟩] }
          {} (Constraints.mk ["peanuts"] [] [] [] [])).is_compliant = false
        ∧ ("ALLERGEN ALERT: " ++ "peanuts" ++ " (found in "
            ++ (⟨"roasted peanuts", 50, "grams"⟩ : Ingredient).name ++ ")")
          ∈ (validate_recipe (fun _ _ => none)
              { name := "Peanut Snack Bowl", meal_type := "breakfast",
                cooking_time_minutes := 10,
                ingredients := [⟨"roasted peanuts", 50, "grams"⟩] }
              {} (Constraints.mk ["peanuts"] [] [] [] [])).violations) :=
  ⟨⟨by decide, by decide, by decide⟩,
   c2_allergen_hit_is_blocking (fun _ _ => none) _ {} _ "peanuts"
     ⟨"roasted peanuts", 50, "grams"⟩ (by decide) (by decide) (by decide)⟩

/-- C8: under a constraint set containing the "vegetarian" dietary
restriction, a recipe that `validate_recipe` reports compliant contains none
of chicken, beef, pork, fish, salmon as a (case-insensitive) substring of any
ingredient name. -/
theorem c8_vegetarian_compliant_excludes_meat (lookup : Lookup) (r : Recipe)
    (pc : PlanningContext) (c : Constraints)
    (hv : "vegetarian" ∈ c.dietary_restrictions)
    (hc : (validate_recipe lookup r pc c).is_compliant = true) :
    ∀ ing ∈ r.ingredients,
      ∀ t ∈ (["chicken", "beef", "pork", "fish", "salmon"] : List String),
        strContains (lowerStr ing.name) t = false := by
  intro ing hi t ht
  cases hmatch : strContains (lowerStr ing.name) t with
  | false => rfl
  | true =>
    exfalso
    have htf : t ∈ (["meat", "chicken", "beef", "pork", "fish", "salmon"] : List String) := by
      have hsub : (["chicken", "beef", "pork", "fish", "salmon"] : List String)
          ⊆ ["meat", "chicken", "beef", "pork", "fish", "salmon"] := by decide
      exact hsub ht
    have hany : (["meat", "chicken", "beef", "pork", "fish", "salmon"] : List String).any
        (fun f => strContains (lowerStr ing.name) f) = true :=
      List.any_eq_true.mpr ⟨t, htf, hmatch⟩
    have hpat : restriction_patterns (lowerStr "vegetarian")
        = some ["meat", "chicken", "beef", "pork", "fish", "salmon"] := by decide
    have hmem2 : ("vegetarian" ++ " restriction violated: contains " ++ ing.name)
        ∈ check_dietary_restrictions r c.dietary_restrictions := by
      rw [check_dietary_restrictions_eq]
      refine List.mem_flatMap.mpr ⟨"vegetarian", hv, ?_⟩
      rw [hpat]
      exact List.mem_flatMap.mpr ⟨ing, hi, by simp [hany]⟩
    have hgate : c.dietary_restrictions.isEmpty = false :=
      List.isEmpty_eq_false.mpr (List.ne_nil_of_mem hv)
    have hmem3 : ("vegetarian" ++ " restriction violated: contains " ++ ing.name)
        ∈ (validate_recipe lookup r pc c).violations := by
      rw [validate_recipe_violations, hgate]
      exact List.mem_append_left _ (List.mem_append_right _ hmem2)
    have hempty : (validate_recipe lookup r pc c).violations = [] :=
      List.isEmpty_iff.mp (by rw [← validate_recipe_compliant]; exact hc)
    rw [hempty] at hmem3
    exact List.not_mem_nil _ hmem3

/-- Witness for C8 at a concrete input: a compliant vegetarian oatmeal
recipe under the restriction "vegetarian". -/
theorem c8_vegetarian_compliant_excludes_meat_witness :
    ("vegetarian" ∈ (Constraints.mk [] ["vegetarian"] [] [] []).dietary_restrictions
      ∧ (validate_recipe (fun _ _ => none)
          { name := "Oatmeal with Fruits and Nuts", meal_type := "breakfast",
            cooking_time_minutes := 15,
            ingredients := [⟨"oats", 300, "grams"⟩, ⟨"banana", 400, "grams"⟩] }
          {} (Constraints.mk [] ["vegetarian"] [] [] [])).is_compliant = true)
    ∧ (∀ ing ∈ ({ name := "Oatmeal with Fruits and Nuts", meal_type := "breakfast",
                  cooking_time_minutes := 15,
                  ingredients := [⟨"oats", 300, "grams"⟩, ⟨"banana", 400, "grams"⟩] }
                  : Recipe).ingredients,
        ∀ t ∈ (["chicken", "beef", "pork", "fish", "salmon"] : List String),
          strContains (lowerStr ing.name) t = false) :=
  ⟨⟨by decide, by decide⟩,
   c8_vegetarian_compliant_excludes_meat (fun _ _ => none)
     { name := "Oatmeal with Fruits and Nuts", meal_type := "breakfast",
       cooking_time_minutes := 15,
       ingredients := [⟨"oats", 300, "grams"⟩, ⟨"banana", 400, "grams"⟩] }
     {} (Constraints.mk [] ["vegetarian"] [] [] [])
     (by decide) (by decide)⟩

/-- C9 counterexample: a member whose calorie target is present but equal to
0 is skipped by the Python truthiness guard `if target:`, so no warning is
emitted even though the absolute difference (100 calories) exceeds 30% of the
expected value (0): the claim's "exactly when" fails for that member. -/
theorem c9_zero_target_counterexample :
    check_calorie_targets ⟨100, 0, 0, 0, 0, 0, 0⟩
        [{ name := "Ann", calorie_target := some 0 }] "dinner" = []
    ∧ |(⟨100, 0, 0, 0, 0, 0, 0⟩ : Nutrition).calories - 0 * meal_share "dinner"|
        > (0 * meal_share "dinner") * (3 / 10) := by
  constructor
  · decide
  · norm_num [meal_share]

/-- C9 as amended (members with an absent or zero calorie target are
skipped): the calorie check emits, member by member, exactly the warning
dictated by `calorieWarningSpec` — warn precisely when the absolute
difference exceeds 30% of `target * meal_share` — with meal shares 0.25,
0.35, 0.40 for breakfast/lunch/dinner and 0.33 for any other meal type; and
these warnings can never affect the violations list or the compliance flag,
which do not depend on the planning context at all. -/
theorem c9_calorie_target_check :
    (∀ (nutrition : Nutrition) (members : List Member) (mt : String),
       check_calorie_targets nutrition members mt
         = members.flatMap (calorieWarningSpec nutrition.calories mt))
    ∧ meal_share "breakfast" = 25 / 100
    ∧ meal_share "lunch" = 35 / 100
    ∧ meal_share "dinner" = 40 / 100
    ∧ (∀ mt, mt ∉ mealTypes → meal_share mt = 33 / 100)
    ∧ (∀ (lookup : Lookup) (r : Recipe) (pc pc' : PlanningContext) (c : Constraints),
        (validate_recipe lookup r pc c).violations
            = (validate_recipe lookup r pc' c).violations
        ∧ (validate_recipe lookup r pc c).is_compliant
            = (validate_recipe lookup r pc' c).is_compliant) := by
  refine ⟨check_calorie_targets_eq, rfl, rfl, rfl, ?_, ?_⟩
  · intro mt h
    simp only [mealTypes, List.mem_cons, List.not_mem_nil, or_false, not_or] at h
    simp [meal_share, h.1, h.2.1, h.2.2]
  · intro lookup r pc pc' c
    constructor
    · rw [validate_recipe_violations, validate_recipe_violations]
    · rw [validate_recipe_compliant, validate_recipe_compliant,
        validate_recipe_violations, validate_recipe_violations]

/-- Witness for C9 at a concrete input: an unknown meal type gets share
0.33. -/
theorem c9_calorie_target_check_witness :
    ("brunch" ∉ mealTypes) ∧ meal_share "brunch" = 33 / 100 :=
  ⟨by decide, c9_calorie_target_check.2.2.2.2.1 "brunch" (by decide)⟩

/-- C5 counterexample: the aggregation deduplicates with Python `set`
semantics, i.e. by exact string equality — "Peanuts" and "peanuts" do NOT
collapse to a single entry, refuting the claim's case-insensitive
deduplication at this concrete household. -/
theorem c5_case_sensitive_counterexample :
    ((get_all_constraints
        { household_id := "fam1",
          members := [{ name := "Bob", allergies := ["Peanuts", "peanuts"] }] }).allergies.card
      = 2)
    ∧ "Peanuts" ∈ (get_all_constraints
        { household_id := "fam1",
          members := [{ name := "Bob", allergies := ["Peanuts", "peanuts"] }] }).allergies
    ∧ "peanuts" ∈ (get_all_constraints
        { household_id := "fam1",
          members := [{ name := "Bob", allergies := ["Peanuts", "peanuts"] }] }).allergies := by
  refine ⟨by decide, by decide, by decide⟩

/-- C5 as amended: constraint aggregation is a deterministic set-union over
all members' four constraint lists, invariant under permuting the members and
under permuting the entries inside each member's lists, and deduplicating by
EXACT string equality (case-sensitive, Python `set` semantics): membership in
the aggregated allergy set is exactly membership in some member's allergy
list. -/
theorem c5_union_order_independent (h1 h2 h3 : Household)
    (hp : h1.members.Perm h2.members)
    (hw : List.Forall₂ MemberListsPerm h2.members h3.members) :
    get_all_constraints h1 = get_all_constraints h3
    ∧ (∀ a, a ∈ (get_all_constraints h1).allergies ↔ ∃ m ∈ h1.members, a ∈ m.allergies) := by
  constructor
  · rw [get_all_constraints_eq, get_all_constraints_eq]
    have perm4 : ∀ (f : Member → List String),
        List.Forall₂ (fun a b => (f a).Perm (f b)) h2.members h3.members →
        ((h1.members.flatMap f).Perm (h3.members.flatMap f)) := by
      intro f hf
      exact (hp.flatMap_right f).trans (flatMap_perm_of_forall₂ hf)
    simp only [ConstraintSets.mk.injEq]
    refine ⟨?_, ?_, ?_, ?_⟩
    · exact List.toFinset_eq_of_perm _ _
        (perm4 (·.allergies) (hw.imp (fun _ _ hab => hab.1)))
    · exact List.toFinset_eq_of_perm _ _
        (perm4 (·.dietary_restrictions) (hw.imp (fun _ _ hab => hab.2.1)))
    · exact List.toFinset_eq_of_perm _ _
        (perm4 (·.health_conditions) (hw.imp (fun _ _ hab => hab.2.2.1)))
    · exact List.toFinset_eq_of_perm _ _
        (perm4 (·.dislikes) (hw.imp (fun _ _ hab => hab.2.2.2)))
  · intro a
    rw [get_all_constraints_eq]
    simp [List.mem_toFinset, List.mem_flatMap]

/-- Witness for C5 at concrete households: swapping the two members and
reordering one member's allergy list leaves the aggregate unchanged. -/
theorem c5_union_order_independent_witness :
    ((Household.mk "w" [{ name := "A", allergies := ["nuts", "dairy"], dislikes := ["okra"] },
                        { name := "B", dietary_restrictions := ["vegan"] }] 45).members.Perm
       (Household.mk "w" [{ name := "B", dietary_restrictions := ["vegan"] },
                          { name := "A", allergies := ["nuts", "dairy"], dislikes := ["okra"] }] 45).members
     ∧ List.Forall₂ MemberListsPerm
        (Household.mk "w" [{ name := "B", dietary_restrictions := ["vegan"] },
                           { name := "A", allergies := ["nuts", "dairy"], dislikes := ["okra"] }] 45).members
        (Household.mk "w" [{ name := "B", dietary_restrictions := ["vegan"] },
                           { name := "A", allergies := ["dairy", "nuts"], dislikes := ["okra"] }] 45).members)
    ∧ (get_all_constraints
        (Household.mk "w" [{ name := "A", allergies := ["nuts", "dairy"], dislikes := ["okra"] },
                           { name := "B", dietary_restrictions := ["vegan"] }] 45)
        = get_all_constraints
        (Household.mk "w" [{ name := "B", dietary_restrictions := ["vegan"] },
                           { name := "A", allergies := ["dairy", "nuts"], dislikes := ["okra"] }] 45)
       ∧ (∀ a, a ∈ (get_all_constraints
            (Household.mk "w" [{ name := "A", allergies := ["nuts", "dairy"], dislikes := ["okra"] },
                               { name := "B", dietary_restrictions := ["vegan"] }] 45)).allergies
          ↔ ∃ m ∈ (Household.mk "w"
                [{ name := "A", allergies := ["nuts", "dairy"], dislikes := ["okra"] },
                 { name := "B", dietary_restrictions := ["vegan"] }] 45).members,
              a ∈ m.allergies)) :=
  ⟨⟨by decide, by
      refine List.Forall₂.cons ⟨by decide, by decide, by decide, by decide⟩ ?_
      exact List.Forall₂.cons ⟨by decide, by decide, by decide, by decide⟩ List.Forall₂.nil⟩,
   c5_union_order_independent
     (Household.mk "w" [{ name := "A", allergies := ["nuts", "dairy"], dislikes := ["okra"] },
                        { name := "B", dietary_restrictions := ["vegan"] }] 45)
     (Household.mk "w" [{ name := "B", dietary_restrictions := ["vegan"] },
                        { name := "A", allergies := ["nuts", "dairy"], dislikes := ["okra"] }] 45)
     (Household.mk "w" [{ name := "B", dietary_restrictions := ["vegan"] },
                        { name := "A", allergies := ["dairy", "nuts"], dislikes := ["okra"] }] 45)
     (by decide)
     (by
      refine List.Forall₂.cons ⟨by decide, by decide, by decide, by decide⟩ ?_
      exact List.Forall₂.cons ⟨by decide, by decide, by decide, by decide⟩ List.Forall₂.nil)⟩

/-- The summing loop skips exactly the "pieces" lines: it folds the lookup
over the sublist of ingredients whose unit is anything else. -/
theorem sumIngredients_eq_filter (lookup : Lookup) :
    ∀ (l : List Ingredient) (acc : Nutrition),
      sumIngredients lookup l acc
        = (l.filter (fun ing => !(ing.unit == "pieces"))).foldl (addLookup lookup) acc := by
  intro l
  induction l with
  | nil => intro acc; simp [sumIngredients]
  | cons ing rest ih =>
    intro acc
    by_cases hp : ing.unit = "pieces"
    · simp [sumIngredients, hp, List.filter_cons, ih]
    · cases hl : lookup ing.name ing.amount with
      | some n => simp [sumIngredients, hp, List.filter_cons, hl, ih, addLookup]
      | none => simp [sumIngredients, hp, List.filter_cons, hl, ih, addLookup]

/-- C7 counterexample: the code passes EVERY unit other than "pieces" to the
lookup (the amount of a "cups" line is fed through as grams), while the claim
sums over exactly the "grams"/"ml" lines.  On a recipe with one
100-"cups" ingredient and a lookup returning the amount as calories, the code
computes 25 calories per serving where the claim's formula yields 0. -/
theorem c7_unit_filter_counterexample :
    calculate_recipe_nutrition (fun _ amt => some ⟨amt, 0, 0, 0, 0, 0, 0⟩)
        { name := "Mystery Bowl", meal_type := "dinner", cooking_time_minutes := 30,
          ingredients := [⟨"mystery mix", 100, "cups"⟩] }
      ≠ nutritionSpecWeightUnits (fun _ amt => some ⟨amt, 0, 0, 0, 0, 0, 0⟩)
        { name := "Mystery Bowl", meal_type := "dinner", cooking_time_minutes := 30,
          ingredients := [⟨"mystery mix", 100, "cups"⟩] } := by
  intro heq
  have h1 : (calculate_recipe_nutrition (fun _ amt => some ⟨amt, 0, 0, 0, 0, 0, 0⟩)
      { name := "Mystery Bowl", meal_type := "dinner", cooking_time_minutes := 30,
        ingredients := [⟨"mystery mix", 100, "cups"⟩] }).calories = 25 := by
    simp [calculate_recipe_nutrition, sumIngredients, Nutrition.map, Nutrition.add,
      Nutrition.zero, round2]
    norm_num
  have h2 : (nutritionSpecWeightUnits (fun _ amt => some ⟨amt, 0, 0, 0, 0, 0, 0⟩)
      { name := "Mystery Bowl", meal_type := "dinner", cooking_time_minutes := 30,
        ingredients := [⟨"mystery mix", 100, "cups"⟩] }).calories = 0 := by
    simp [nutritionSpecWeightUnits, addLookup, Nutrition.map, Nutrition.zero, round2]
    norm_num
  rw [heq, h2] at h1
  norm_num at h1

/-- C7 as amended: nutrition-per-serving sums the nutrient lookup over all
ingredient lines whose unit is not "pieces" (ml and every other unit's amount
passed 1:1 as grams), skipping lines whose lookup fails, with each field
divided by `servings` (default 4 when absent) and rounded to 2 decimals.  The
hypothesis records the Python domain (a zero `servings` would raise
`ZeroDivisionError` rather than return a value). -/
theorem c7_nutrition_per_serving (lookup : Lookup) (r : Recipe)
    (_hpos : 0 < r.servings.getD 4) :
    calculate_recipe_nutrition lookup r = nutritionSpecNonPieces lookup r := by
  simp only [calculate_recipe_nutrition, nutritionSpecNonPieces]
  rw [sumIngredients_eq_filter]

/-- Witness for C7 at a concrete input. -/
theorem c7_nutrition_per_serving_witness :
    (0 < ({ name := "Mystery Bowl", meal_type := "dinner",
            cooking_time_minutes := 30,
            ingredients := [⟨"mystery mix", 100, "cups"⟩] } : Recipe).servings.getD 4)
    ∧ calculate_recipe_nutrition (fun _ _ => none)
        { name := "Mystery Bowl", meal_type := "dinner", cooking_time_minutes := 30,
          ingredients := [⟨"mystery mix", 100, "cups"⟩] }
      = nutritionSpecNonPieces (fun _ _ => none)
        { name := "Mystery Bowl", meal_type := "dinner", cooking_time_minutes := 30,
          ingredients := [⟨"mystery mix", 100, "cups"⟩] } :=
  ⟨by decide,
   c7_nutrition_per_serving (fun _ _ => none)
     { name := "Mystery Bowl", meal_type := "dinner", cooking_time_minutes := 30,
       ingredients := [⟨"mystery mix", 100, "cups"⟩] } (by decide)⟩

/-- The cooking-time fold keeps every component nonnegative when every day
sum it consumes is nonnegative. -/
theorem ctFold_invariant :
    ∀ (plan : List Day) (st : List ℚ × ℚ × ℚ × Option ℚ),
      (∀ d ∈ plan, ∀ m ∈ d.meals, 0 ≤ m.cooking_time_minutes) →
      (∀ t ∈ st.1, 0 ≤ t) → 0 ≤ st.2.1 → 0 ≤ st.2.2.1 →
      (∀ q ∈ st.2.2.2, 0 ≤ q) →
      (∀ t ∈ (plan.foldl ctStep st).1, 0 ≤ t)
        ∧ 0 ≤ (plan.foldl ctStep st).2.1
        ∧ 0 ≤ (plan.foldl ctStep st).2.2.1
        ∧ (∀ q ∈ (plan.foldl ctStep st).2.2.2, 0 ≤ q) := by
  intro plan
  induction plan with
  | nil => intro st _ h1 h2 h3 h4; exact ⟨h1, h2, h3, h4⟩
  | cons d rest ih =>
    intro st hplan h1 h2 h3 h4
    have hd : 0 ≤ (d.meals.map (·.cooking_time_minutes)).sum := by
      apply List.sum_nonneg
      intro x hx
      rcases List.mem_map.mp hx with ⟨m, hm, rfl⟩
      exact hplan d (by simp) m hm
    rw [List.foldl_cons]
    refine ih (ctStep st d) (fun d' hd' m hm => hplan d' (by simp [hd']) m hm)
      ?_ ?_ ?_ ?_
    · intro t ht
      simp only [ctStep] at ht
      rcases List.mem_append.mp ht with h | h
      · exact h1 t h
      · rw [List.mem_singleton.mp h]; exact hd
    · simp only [ctStep]
      exact add_nonneg h2 hd
    · simp only [ctStep]
      exact le_max_of_le_left h3
    · intro q hq
      simp only [ctStep, Option.mem_def, Option.some.injEq] at hq
      cases hmin : st.2.2.2 with
      | none => rw [hmin] at hq; rw [← hq]; exact hd
      | some m =>
        rw [hmin] at hq
        rw [← hq]
        exact le_min (h4 m (by rw [hmin]; rfl)) hd

/-- C10: the cooking-time statistics are total, the empty plan yields all-zero
stats (no division by zero and the internal infinity sentinel is mapped back
to 0), and on any plan with nonnegative meal cooking times every returned
field is nonnegative. -/
theorem c10_cooking_time_stats_total :
    analyze_cooking_times [] = ⟨0, 0, 0, 0, []⟩
    ∧ ∀ (plan : List Day),
        (∀ d ∈ plan, ∀ m ∈ d.meals, 0 ≤ m.cooking_time_minutes) →
        0 ≤ (analyze_cooking_times plan).total_minutes
        ∧ 0 ≤ (analyze_cooking_times plan).average_per_day
        ∧ 0 ≤ (analyze_cooking_times plan).max_day
        ∧ 0 ≤ (analyze_cooking_times plan).min_day
        ∧ ∀ t ∈ (analyze_cooking_times plan).daily_times, 0 ≤ t := by
  constructor
  · rfl
  · intro plan hplan
    obtain ⟨hdaily, htot, hmax, hmin⟩ :=
      ctFold_invariant plan ([], 0, 0, none) hplan (by simp) le_rfl le_rfl (by simp)
    refine ⟨htot, ?_, hmax, ?_, hdaily⟩
    · show 0 ≤ (if plan.isEmpty then 0
          else (plan.foldl ctStep ([], 0, 0, none)).2.1 / plan.length)
      by_cases he : plan.isEmpty
      · simp [he]
      · simp only [he, if_false]
        exact div_nonneg htot (by positivity)
    · show 0 ≤ ((plan.foldl ctStep ([], 0, 0, none)).2.2.2).getD 0
      cases hm2 : (plan.foldl ctStep ([], 0, 0, none)).2.2.2 with
      | none => simp
      | some q =>
        simp only [Option.getD_some]
        exact hmin q (by rw [hm2]; rfl)

/-- Witness for C10 at a concrete one-day plan. -/
theorem c10_cooking_time_stats_total_witness :
    (∀ d ∈ ([⟨1, [{ name := "Toast", meal_type := "breakfast",
                    cooking_time_minutes := 10 }]⟩] : List Day),
       ∀ m ∈ d.meals, 0 ≤ m.cooking_time_minutes)
    ∧ (0 ≤ (analyze_cooking_times
              [⟨1, [{ name := "Toast", meal_type := "breakfast",
                      cooking_time_minutes := 10 }]⟩]).total_minutes
       ∧ 0 ≤ (analyze_cooking_times
              [⟨1, [{ name := "Toast", meal_type := "breakfast",
                      cooking_time_minutes := 10 }]⟩]).average_per_day
       ∧ 0 ≤ (analyze_cooking_times
              [⟨1, [{ name := "Toast", meal_type := "breakfast",
                      cooking_time_minutes := 10 }]⟩]).max_day
       ∧ 0 ≤ (analyze_cooking_times
              [⟨1, [{ name := "Toast", meal_type := "breakfast",
                      cooking_time_minutes := 10 }]⟩]).min_day
       ∧ ∀ t ∈ (analyze_cooking_times
              [⟨1, [{ name := "Toast", meal_type := "breakfast",
                      cooking_time_minutes := 10 }]⟩]).daily_times, 0 ≤ t) :=
  ⟨by decide,
   c10_cooking_time_stats_total.2
     [⟨1, [{ name := "Toast", meal_type := "breakfast",
             cooking_time_minutes := 10 }]⟩] (by decide)⟩

/-- C1: evaluating the retry loop at the claim's scenario — maxRetries = 2
with a Recipe Source that returns a violating recipe on its first call of the
slot and compliant recipes afterwards — the loop accepts a compliant recipe
but makes THREE Recipe Source calls, not the claimed at-most-two: the
attempt-1 `generate_recipe` call, a `regenerate_recipe` call whose result the
code discards (the variable is overwritten at the top of the next loop
iteration), and the attempt-2 `generate_recipe` call whose result is
accepted. -/
theorem c1_retry_loop_call_count :
    generateValidatedRecipe stubGen stubValidate 2
      = (some (attachNutrition goodRecipe okVR), 3) := by decide

/-- C3 counterexample: with a Recipe Source whose candidates are always
rejected, `planWeek` (days = 2, maxRetries = 2) returns day entries whose
meal lists are simply EMPTY — no failed-slot marker and no ValidationResult —
and the result is identical for two validator stubs whose (different) last
ValidationResults are distinguishable, so the plan cannot expose which slots
failed or why. -/
theorem c3_failed_slots_not_recorded :
    generate_complete_meal_plan (fun _ _ => badRecipe) (fun _ => failVR) 2 2
        = [⟨1, []⟩, ⟨2, []⟩]
    ∧ generate_complete_meal_plan (fun _ _ => badRecipe) (fun _ => failVR2) 2 2
        = [⟨1, []⟩, ⟨2, []⟩]
    ∧ failVR ≠ failVR2 := by
  refine ⟨by decide, by decide, by decide⟩

/-- C3 as amended: when a slot's retry budget is exhausted, `planWeek` drops
that slot from the day's meals list (the failure and its ValidationResult are
only logged, not recorded in the returned plan), does not crash, and
continues planning every remaining slot and day: the result always has one
entry per requested day, and each day's meals are exactly the accepted slots
in meal-type order. -/
theorem c3_exhausted_slot_dropped (gen : String → ℕ → Recipe)
    (v : Recipe → ValidationResult) (days max_retries : ℕ) :
    generate_complete_meal_plan gen v days max_retries
      = (List.range days).map (fun i =>
          { day := i + 1
            meals := mealTypes.filterMap
              (fun mt => (generateValidatedRecipe (gen mt) v max_retries).1) })
    ∧ (generate_complete_meal_plan gen v days max_retries).length = days := by
  refine ⟨generate_complete_meal_plan_eq gen v days max_retries, ?_⟩
  rw [generate_complete_meal_plan_eq]
  simp

/-- C4: every recipe appearing in a day of the returned weekly plan is the
nutrition-annotated form of a candidate that the validator reported compliant
at the moment it was accepted; a non-compliant candidate is never placed in a
slot (an exhausted slot is simply absent from the day's meals). -/
theorem c4_accepted_recipes_validated (gen : String → ℕ → Recipe)
    (v : Recipe → ValidationResult) (days max_retries : ℕ) (d : Day) (r : Recipe)
    (hd : d ∈ generate_complete_meal_plan gen v days max_retries)
    (hr : r ∈ d.meals) :
    ∃ r₀, (v r₀).is_compliant = true ∧ r = attachNutrition r₀ (v r₀) := by
  rw [generate_complete_meal_plan_eq] at hd
  rcases List.mem_map.mp hd with ⟨i, _, rfl⟩
  rcases List.mem_filterMap.mp hr with ⟨mt, _, hsome⟩
  exact genValidatedAux_accept (gen mt) v max_retries 0 r hsome

/-- Witness for C4 at a concrete input: an always-compliant validator and a
one-day plan. -/
theorem c4_accepted_recipes_validated_witness :
    ((⟨1, [attachNutrition goodRecipe okVR, attachNutrition goodRecipe okVR,
           attachNutrition goodRecipe okVR]⟩ : Day)
        ∈ generate_complete_meal_plan (fun _ _ => goodRecipe) (fun _ => okVR) 1 1
      ∧ attachNutrition goodRecipe okVR
          ∈ (⟨1, [attachNutrition goodRecipe okVR, attachNutrition goodRecipe okVR,
                  attachNutrition goodRecipe okVR]⟩ : Day).meals)
    ∧ ∃ r₀, ((fun _ => okVR) r₀).is_compliant = true
        ∧ attachNutrition goodRecipe okVR = attachNutrition r₀ ((fun _ => okVR) r₀) :=
  ⟨⟨by decide, by decide⟩,
   c4_accepted_recipes_validated (fun _ _ => goodRecipe) (fun _ => okVR) 1 1
     (⟨1, [attachNutrition goodRecipe okVR, attachNutrition goodRecipe okVR,
           attachNutrition goodRecipe okVR]⟩ : Day)
     (attachNutrition goodRecipe okVR) (by decide) (by decide)⟩

end MealMind
